import Mathlib

/- Shallow embedding of the doxie-scan-save-send repository
   (src/grab.py and src/doxieapi/__main__.py).

   Conventions:
   - Python strings are Lean String values; byte streams are List Nat.
   - URLs are modelled structurally as UrlParts (scheme, netloc, path,
     params, query, fragment), so urlparse and urlunparse from the source
     become structure operations; urljoin with an absolute-path reference
     (the only form the source uses) keeps scheme and netloc of the base
     and replaces the path, clearing params, query and fragment.
   - Network effects are modelled by explicit environments (oracles) that
     map a request to its outcome; Python exceptions become the PyError
     type, with one constructor per exception class or raise site of the
     code.
   - Methods that mutate the instance take and return the DoxieScanner
     state explicitly. -/

/-- Python exception outcomes of the code, one constructor per exception
class or raise site: connectionError is a requests connection failure
(device unreachable), httpError is the requests HTTPError raised by
raise_for_status and carries the HTTP status code (a 404 not-found and a
401 auth rejection share this exception class and differ in the carried
status), jsonError is a JSON decode failure of a response body, and
credentialNotFound is the Exception raised by DoxieScanner._load_password
when the INI store has no entry for the MAC of the device. -/
inductive PyError where
  | connectionError
  | httpError (status : Nat)
  | jsonError
  | credentialNotFound (mac : Option String) (configPath : String)
  deriving DecidableEq, Repr

/-- Result of urlparse: scheme, netloc (host and port), path, params,
query, fragment. -/
structure UrlParts where
  scheme : String
  netloc : String
  path : String
  params : String
  query : String
  fragment : String
  deriving DecidableEq, Repr

/-- State of one DoxieScanner instance (src/grab.py lines 12 to 31).
Class attributes default to None in the source; the Option fields are
populated by _load_hello_attributes. -/
structure DoxieScanner where
  url : UrlParts
  username : String
  password : Option String
  model : Option String
  name : Option String
  mac : Option String
  mode : Option String
  network : Option String
  firmware_wifi : Option String
  _firmware : Option String
  deriving DecidableEq, Repr

/-- A fresh instance before _load_hello_attributes runs: url is set by
the constructor, username is the fixed account name from the API docs,
everything else is the class default None. -/
def DoxieScanner.mkInitial (url : UrlParts) : DoxieScanner :=
  { url := url, username := "doxie", password := none, model := none, name := none,
    mac := none, mode := none, network := none, firmware_wifi := none, _firmware := none }

/-- DoxieScanner._api_url (src/grab.py lines 56 to 63): urljoin of the
base URL with an absolute-path reference (every call site passes a path
that starts with a slash), which keeps scheme and netloc of the base and
replaces the path, clearing params, query and fragment. -/
def DoxieScanner._api_url (s : DoxieScanner) (path : String) : UrlParts :=
  { scheme := s.url.scheme, netloc := s.url.netloc, path := path,
    params := "", query := "", fragment := "" }

/-- Parsed JSON body of one hello_extra response. -/
structure HelloExtraResp where
  firmware : String
  connectedToExternalPower : Bool
  deriving DecidableEq, Repr

/-- Oracle for the hello_extra endpoint: resps k is the parsed body of
the k-th hello_extra call made over the session and calls counts the
costly calls made so far. -/
structure ExtraOracle where
  resps : Nat → HelloExtraResp
  calls : Nat

/-- Perform one hello_extra call against the oracle. -/
def callExtra (o : ExtraOracle) : HelloExtraResp × ExtraOracle :=
  (o.resps o.calls, { o with calls := o.calls + 1 })

/-- DoxieScanner.firmware property (src/grab.py lines 120 to 129): if the
cache is None, perform the costly hello_extra call, store the firmware
field of the response in the cache, and return it; otherwise return the
cache without any call. -/
def DoxieScanner.firmware (s : DoxieScanner) (o : ExtraOracle) :
    String × DoxieScanner × ExtraOracle :=
  match s._firmware with
  | some f => (f, s, o)
  | none =>
    ((callExtra o).1.firmware,
     { s with _firmware := some (callExtra o).1.firmware },
     (callExtra o).2)

/-- DoxieScanner.connected_to_external_power property (src/grab.py lines
131 to 143): always performs the costly hello_extra call, refreshes the
firmware cache from the same response, and returns the power flag of
that response. -/
def DoxieScanner.connected_to_external_power (s : DoxieScanner) (o : ExtraOracle) :
    Bool × DoxieScanner × ExtraOracle :=
  ((callExtra o).1.connectedToExternalPower,
   { s with _firmware := some (callExtra o).1.firmware },
   (callExtra o).2)

/-- N repeated reads of the firmware property on one instance. -/
def firmwareIter : Nat → DoxieScanner → ExtraOracle → List String × DoxieScanner × ExtraOracle
  | 0, s, o => ([], s, o)
  | n + 1, s, o =>
    ((s.firmware o).1 :: (firmwareIter n (s.firmware o).2.1 (s.firmware o).2.2).1,
     (firmwareIter n (s.firmware o).2.1 (s.firmware o).2.2).2)

/-- N repeated reads of connected_to_external_power on one instance. -/
def powerIter : Nat → DoxieScanner → ExtraOracle → List Bool × DoxieScanner × ExtraOracle
  | 0, s, o => ([], s, o)
  | n + 1, s, o =>
    ((s.connected_to_external_power o).1 ::
       (powerIter n (s.connected_to_external_power o).2.1
         (s.connected_to_external_power o).2.2).1,
     (powerIter n (s.connected_to_external_power o).2.1
       (s.connected_to_external_power o).2.2).2)

/-- Parsed body of a well-formed hello.json response: the fields the code
reads. A failed or malformed response is represented by the error side of
the hello oracle. -/
structure HelloResp where
  model : String
  name : String
  mac : String
  mode : String
  network : String
  firmwareWiFi : String
  hasPassword : Bool
  deriving DecidableEq, Repr

/-- Environment for construction: hello maps the request URL to the
outcome of GET hello.json (the error side covers connection failures,
HTTP error statuses and JSON decode failures); config is the parsed
INI credential store as a map from MAC section to password value, and
configPath the resolved path of that file. -/
structure ConstructEnv where
  hello : UrlParts → Except PyError HelloResp
  config : String → Option String
  configPath : String

/-- DoxieScanner._load_password (src/grab.py lines 107 to 118): look up
the password under the MAC section of the INI store; on a missing
section or key the KeyError is turned into the could-not-find-password
Exception carrying the MAC and the config path. -/
def DoxieScanner._load_password (s : DoxieScanner) (env : ConstructEnv) :
    Except PyError DoxieScanner :=
  match s.mac.bind env.config with
  | some pw => Except.ok { s with password := some pw }
  | none => Except.error (PyError.credentialNotFound s.mac env.configPath)

/-- DoxieScanner._load_hello_attributes (src/grab.py lines 89 to 105):
perform the hello.json call, set the identity attributes, set network
only in Client mode, and load the password when hasPassword is true.
The second component is the log of device API paths requested. -/
def DoxieScanner._load_hello_attributes (s : DoxieScanner) (env : ConstructEnv) :
    Except PyError DoxieScanner × List String :=
  match env.hello (s._api_url "/hello.json") with
  | Except.error e => (Except.error e, ["/hello.json"])
  | Except.ok a =>
    let s1 := { s with model := some a.model, name := some a.name, mac := some a.mac,
                       mode := some a.mode, firmware_wifi := some a.firmwareWiFi }
    let s2 := if a.mode = "Client" then { s1 with network := some a.network } else s1
    (if a.hasPassword then DoxieScanner._load_password s2 env else Except.ok s2,
     ["/hello.json"])

/-- DoxieScanner.__init__ (src/grab.py lines 28 to 31): store the url
and, when load_attributes is true, run _load_hello_attributes. Paired
with the log of device API paths requested during construction. -/
def DoxieScanner.init (url : UrlParts) (load_attributes : Bool) (env : ConstructEnv) :
    Except PyError DoxieScanner × List String :=
  if load_attributes then
    DoxieScanner._load_hello_attributes (DoxieScanner.mkInitial url) env
  else
    (Except.ok (DoxieScanner.mkInitial url), [])

/-- One SSDP reply; location is the advertised URL, already in parsed
(urlparse) form. -/
structure SsdpResponse where
  location : UrlParts
  deriving DecidableEq, Repr

/-- Executable success test for Except values. -/
def exceptOk {e a : Type} : Except e a → Bool
  | Except.ok _ => true
  | Except.error _ => false

/-- DoxieScanner.discover (src/grab.py lines 43 to 54): for each SSDP
reply, urlparse the location, keep scheme and netloc, rebuild the URL
with the path set to the root and params, query and fragment empty
(urlunparse), and construct a DoxieScanner on that base address; a
construction failure propagates out of the loop. -/
def discover (responses : List SsdpResponse) (env : ConstructEnv) :
    Except PyError (List DoxieScanner) :=
  match responses with
  | [] => Except.ok []
  | r :: rest =>
    match (DoxieScanner.init
        { scheme := r.location.scheme, netloc := r.location.netloc, path := "/",
          params := "", query := "", fragment := "" } true env).1 with
    | Except.error e => Except.error e
    | Except.ok d => (discover rest env).map (fun ds => d :: ds)

/-- Python str.startswith. -/
def startswith (s pre : String) : Bool := pre.data.isPrefixOf s.data

/-- Python str.endswith. -/
def endswith (s suf : String) : Bool := suf.data.isSuffixOf s.data

/-- Python os.path.basename for POSIX paths: the part of the path after
the final slash. -/
def os_path_basename (p : String) : String :=
  String.mk ((p.data.reverse.takeWhile (fun c => c != '/')).reverse)

/-- Python os.path.join for POSIX paths and two arguments. -/
def os_path_join (a b : String) : String :=
  if startswith b "/" then b
  else if a = "" ∨ endswith a "/" then a ++ b
  else a ++ "/" ++ b

/-- Fuel-indexed chunking of a list into pieces of size k, mirroring how
the requests iter_content method yields a stream in chunks of a fixed
chunk_size; the fuel is instantiated with the length of the list. -/
def toChunksAux {a : Type} (k : Nat) : Nat → List a → List (List a)
  | 0, _ => []
  | _ + 1, [] => []
  | fuel + 1, x :: xs => (x :: xs).take k :: toChunksAux k fuel ((x :: xs).drop k)

/-- Chunking of a list into pieces of size k. -/
def toChunks {a : Type} (k : Nat) (l : List a) : List (List a) :=
  toChunksAux k l.length l

/-- iter_content with chunk_size 1024 * 8 as used by download_scan
(src/grab.py line 170). -/
def iter_content (body : List Nat) : List (List Nat) := toChunks (1024 * 8) body

/-- Outcome of one HTTP GET: a connection failure or a response with a
status code and raw body bytes. -/
inductive HttpOutcome where
  | connectionFail
  | response (status : Nat) (body : List Nat)
  deriving DecidableEq, Repr

/-- Transport oracle mapping a request URL to its outcome; basic
authentication from the stored credential is part of the transport and
folded into the oracle. -/
structure StreamEnv where
  http : UrlParts → HttpOutcome

/-- DoxieScanner._get_url (src/grab.py lines 76 to 87): GET the URL; a
connection failure propagates as the requests connection error; on a
response with a status other than 200, raise_for_status raises HTTPError
for the 4xx and 5xx codes and otherwise the response is returned. -/
def DoxieScanner._get_url (env : StreamEnv) (url : UrlParts) :
    Except PyError (Nat × List Nat) :=
  match env.http url with
  | HttpOutcome.connectionFail => Except.error PyError.connectionError
  | HttpOutcome.response status body =>
    if status ≠ 200 then
      if 400 ≤ status then Except.error (PyError.httpError status)
      else Except.ok (status, body)
    else Except.ok (status, body)

/-- Local filesystem as a map from path to file bytes. -/
def Fs : Type := String → Option (List Nat)

/-- DoxieScanner.download_scan (src/grab.py lines 158 to 172): prepend
the scans root to the path when it does not already start with it, GET
the resulting URL as a stream, open the output path for writing in
binary mode (truncating any existing file), write the body chunk by
chunk, and return the output path. The result pairs the Except outcome
(output path and updated filesystem) with the URL that was requested. -/
def DoxieScanner.download_scan (s : DoxieScanner) (env : StreamEnv) (fs : Fs)
    (path output_dir : String) : Except PyError (String × Fs) × UrlParts :=
  let path1 := if startswith path "/scans" then path else "/scans" ++ path
  let url := s._api_url path1
  let output_path := os_path_join output_dir (os_path_basename path1)
  ((match DoxieScanner._get_url env url with
    | Except.error e => Except.error e
    | Except.ok r =>
      Except.ok
        (output_path,
         fun q => if q = output_path
                  then some ((iter_content r.2).foldl (fun acc c => acc ++ c) [])
                  else fs q)),
   url)

/-- Environment of the scan transfer workflow: listings q is the device
scan listing (the name field of each record) returned by the q-th
scans.json query of the cycle, and download maps a record name to the
outcome of downloading it (the local file path on success). The scans
property of the client (src/grab.py lines 145 to 150) re-queries the
device on every read, which the query counter makes explicit. -/
structure WorkflowEnv where
  listings : Nat → List String
  download : String → Except PyError String

/-- Download every record of a listing in order, collecting the local
paths; the first failure propagates immediately, so the following
records are not attempted. The second component is the list of records
for which a download was attempted. -/
def downloadEach (dl : String → Except PyError String) :
    List String → Except PyError (List String) × List String
  | [] => (Except.ok [], [])
  | n :: rest =>
    match dl n with
    | Except.error e => (Except.error e, [n])
    | Except.ok p =>
      ((downloadEach dl rest).1.map (fun ps => p :: ps),
       n :: (downloadEach dl rest).2)

/-- Modelled from the spec: DoxieScanner.download_scans_renamed lives in
doxieapi/api.py, which is not under src/. Following section 4.4 step 2
of the spec and the analogous DoxieScanner.download_scans in src/grab.py
lines 174 to 178, it queries the scan listing once and downloads each
record in listing order; a download failure propagates to the caller
(the comment in src/doxieapi/__main__.py lines 15 to 20 relies on
exactly that). Takes and returns the scans query counter. -/
def download_scans_renamed (env : WorkflowEnv) (q : Nat) :
    Except PyError (List String) × List String × Nat :=
  ((downloadEach env.download (env.listings q)).1,
   (downloadEach env.download (env.listings q)).2, q + 1)

/-- Modelled from the spec: DoxieScanner.delete_scans lives in
doxieapi/api.py, which is not under src/. Following section 4.3 of the
spec, it requests deletion of the given remote scan names in one call;
the returned list is the list of deletion requests issued. -/
def delete_scans (names : List String) : List (List String) := [names]

/-- Observable trace of one per-scanner cycle of main. -/
structure CycleTrace where
  downloadsAttempted : List String
  sent : List String
  deleteCalls : List (List String)
  caught : Option PyError
  deriving DecidableEq, Repr

/-- The per-scanner body of main (src/doxieapi/__main__.py lines 12 to
41): inside one try block, download all scans, send and locally remove
each saved file (sends are modelled as succeeding), then call
delete_scans over a fresh scans query; a bare except absorbs any
exception raised anywhere in the block, so the function is total and the
absorbed error is recorded in caught. -/
def scanner_cycle (env : WorkflowEnv) : CycleTrace :=
  match (download_scans_renamed env 0).1 with
  | Except.error e =>
    { downloadsAttempted := (download_scans_renamed env 0).2.1, sent := [],
      deleteCalls := [], caught := some e }
  | Except.ok paths =>
    { downloadsAttempted := (download_scans_renamed env 0).2.1, sent := paths,
      deleteCalls := delete_scans (env.listings (download_scans_renamed env 0).2.2),
      caught := none }

/-- Workflow environment in which the listing has three records and the
backing file of the second is gone: its download fails with the
not-found HTTPError, the other two succeed. -/
def c1Env : WorkflowEnv :=
  { listings := fun _ => ["r1", "r2", "r3"],
    download := fun n =>
      if n = "r2" then Except.error (PyError.httpError 404)
      else Except.ok (n ++ ".saved") }

/-- Workflow environment in which every download succeeds and a new scan
appears between the first and the second scans query. -/
def c2Env : WorkflowEnv :=
  { listings := fun q => if q = 0 then ["a"] else ["a", "b"],
    download := fun n => Except.ok (n ++ ".saved") }

/-- Concrete base address used by the witnesses. -/
def baseUrl : UrlParts :=
  { scheme := "http", netloc := "192.168.100.1:8080", path := "/",
    params := "", query := "", fragment := "" }

/-- Concrete client state used by the witnesses. -/
def dS : DoxieScanner := DoxieScanner.mkInitial baseUrl

/-- Transport that answers every request with status 200 and a small
body. -/
def env200 : StreamEnv := { http := fun _ => HttpOutcome.response 200 [1, 2, 3] }

/-- Transport that answers every request with a not-found status. -/
def env404 : StreamEnv := { http := fun _ => HttpOutcome.response 404 [] }

/-- Filesystem that already has a file at the destination path the C9
witness writes to, so the overwrite is exercised. -/
def fs0 : Fs := fun p => if p = "/tmp/IMG_0001.JPG" then some [7] else none

/-- Hello response of a device that requires a password. -/
def helloA : HelloResp :=
  { model := "DX250", name := "Doxie_00AAFF", mac := "00:AA:FF:01:02:03",
    mode := "Host", network := "", firmwareWiFi := "1.29", hasPassword := true }

/-- Construction environment whose credential store is empty. -/
def c6Env : ConstructEnv :=
  { hello := fun _ => Except.ok helloA, config := fun _ => none,
    configPath := "/root/.doxiegrabber.ini" }

/-- Hello response of a device that requires no password. -/
def helloB : HelloResp := { helloA with hasPassword := false }

/-- SSDP reply whose advertised location has a non-root path, a query
and a fragment, all of which discovery must drop. -/
def c7Resp : SsdpResponse :=
  { location := { scheme := "http", netloc := "192.168.100.1:8080",
                  path := "/some/where", params := "", query := "k=v",
                  fragment := "frag" } }

/-- Construction environment in which the hello call succeeds and no
password is required. -/
def c7Env : ConstructEnv :=
  { hello := fun _ => Except.ok helloB, config := fun _ => none,
    configPath := "/root/.doxiegrabber.ini" }

/-- Oracle whose hello_extra responses all carry the same firmware
string. -/
def oracle1 : ExtraOracle :=
  { resps := fun _ => { firmware := "2.9.0", connectedToExternalPower := true },
    calls := 0 }

/-- Folding list append over a list of chunks concatenates them after
the accumulator. -/
theorem foldl_append_eq_join {a : Type} (L : List (List a)) (acc : List a) :
    L.foldl (fun x c => x ++ c) acc = acc ++ L.flatten := by
  induction L generalizing acc with
  | nil => simp
  | cons c L ih => simp [List.foldl_cons, ih, List.append_assoc]

/-- Chunking with positive chunk size and enough fuel loses no element:
joining the chunks gives the original list back. -/
theorem toChunksAux_join {a : Type} (k : Nat) (hk : 0 < k) :
    ∀ (fuel : Nat) (l : List a), l.length ≤ fuel → (toChunksAux k fuel l).flatten = l := by
  intro fuel
  induction fuel with
  | zero =>
    intro l hl
    have hnil : l = [] := List.eq_nil_of_length_eq_zero (Nat.le_zero.mp hl)
    subst hnil
    rfl
  | succ fuel ih =>
    intro l hl
    match l with
    | [] => rfl
    | x :: xs =>
      have h1 : (x :: xs).length ≤ fuel + 1 := hl
      have hdrop : ((x :: xs).drop k).length ≤ fuel := by
        rw [List.length_drop]
        simp only [List.length_cons] at h1
        omega
      simp [toChunksAux, ih _ hdrop, List.take_append_drop]

/-- Every chunk produced with positive chunk size is nonempty and no
longer than the chunk size. -/
theorem toChunksAux_len {a : Type} (k : Nat) (hk : 0 < k) :
    ∀ (fuel : Nat) (l : List a) (c : List a), c ∈ toChunksAux k fuel l →
      0 < c.length ∧ c.length ≤ k := by
  intro fuel
  induction fuel with
  | zero => intro l c hc; simp [toChunksAux] at hc
  | succ fuel ih =>
    intro l c hc
    match l with
    | [] => simp [toChunksAux] at hc
    | x :: xs =>
      simp only [toChunksAux, List.mem_cons] at hc
      cases hc with
      | inl h =>
        subst h
        constructor
        · simp only [List.length_take, List.length_cons]
          omega
        · simp only [List.length_take]
          exact Nat.min_le_left _ _
      | inr h => exact ih _ _ h

/-- The chunked write of download_scan reproduces the body byte for
byte. -/
theorem iter_content_join (body : List Nat) :
    (iter_content body).foldl (fun x c => x ++ c) [] = body := by
  rw [foldl_append_eq_join]
  simpa [iter_content, toChunks] using
    toChunksAux_join (1024 * 8) (by decide) body.length body le_rfl

/-- takeWhile never reaches past a failing element of the first list. -/
theorem takeWhile_append_of_break {a : Type} (P : a → Bool) (l2 : List a) :
    ∀ l1 : List a, (∃ x ∈ l1, P x = false) →
      (l1 ++ l2).takeWhile P = l1.takeWhile P := by
  intro l1
  induction l1 with
  | nil => intro h; simp at h
  | cons x xs ih =>
    intro h
    cases hx : P x with
    | false => simp [List.takeWhile_cons, hx]
    | true =>
      simp only [List.cons_append, List.takeWhile_cons, hx]
      have hrest : ∃ y ∈ xs, P y = false := by
        obtain ⟨y, hy, hPy⟩ := h
        cases List.mem_cons.mp hy with
        | inl heq => rw [heq] at hPy; rw [hPy] at hx; cases hx
        | inr hmem => exact ⟨y, hmem, hPy⟩
      rw [ih hrest]

/-- Appending in front of a path that contains a slash does not change
its basename. -/
theorem os_path_basename_append (a b : String) (h : '/' ∈ b.data) :
    os_path_basename (a ++ b) = os_path_basename b := by
  unfold os_path_basename
  rw [String.data_append, List.reverse_append]
  rw [takeWhile_append_of_break _ _ _ ⟨'/', by simpa using h, by simp⟩]

/-- A string that startswith a slash contains a slash. -/
theorem startswith_slash_mem (p : String) (h : startswith p "/" = true) :
    '/' ∈ p.data := by
  unfold startswith at h
  have hd : ("/" : String).data = ['/'] := rfl
  rw [hd] at h
  match hp : p.data with
  | [] => rw [hp] at h; simp [List.isPrefixOf] at h
  | c :: t =>
    rw [hp] at h
    simp only [List.isPrefixOf, List.isPrefixOf_nil_left, Bool.and_true, beq_iff_eq] at h
    rw [← h]
    exact List.mem_cons_self _ _

/-- For a path that starts with a slash, the scans-root fixup of
download_scan does not change the basename. -/
theorem os_path_basename_fixup (path : String) (h : startswith path "/" = true) :
    os_path_basename (if startswith path "/scans" then path else "/scans" ++ path) =
      os_path_basename path := by
  by_cases hs : startswith path "/scans" = true
  · simp [hs]
  · simp only [Bool.not_eq_true] at hs
    simp only [hs, Bool.false_eq_true, if_false]
    exact os_path_basename_append "/scans" path (startswith_slash_mem path h)

/-- The URL requested by download_scan is the API URL of the path after
the scans-root fixup. -/
theorem download_scan_url (s : DoxieScanner) (env : StreamEnv) (fs : Fs)
    (path dir : String) :
    (s.download_scan env fs path dir).2 =
      s._api_url (if startswith path "/scans" then path else "/scans" ++ path) := rfl

/-- On a 200 response, download_scan returns the joined output path and
writes the chunked body at it, leaving every other path alone. -/
theorem download_scan_ok (s : DoxieScanner) (env : StreamEnv) (fs : Fs)
    (path dir : String) (body : List Nat)
    (h : env.http (s._api_url (if startswith path "/scans" then path
           else "/scans" ++ path)) = HttpOutcome.response 200 body) :
    (s.download_scan env fs path dir).1 =
      Except.ok
        (os_path_join dir (os_path_basename
           (if startswith path "/scans" then path else "/scans" ++ path)),
         fun q =>
           if q = os_path_join dir (os_path_basename
               (if startswith path "/scans" then path else "/scans" ++ path))
           then some ((iter_content body).foldl (fun acc c => acc ++ c) [])
           else fs q) := by
  unfold DoxieScanner.download_scan
  simp only [DoxieScanner._get_url, h]
  norm_num

/-- When every download of a listing succeeds, downloadEach succeeds and
attempts exactly the whole listing. -/
theorem downloadEach_all_ok (dl : String → Except PyError String) :
    ∀ l : List String, (∀ n ∈ l, exceptOk (dl n) = true) →
      ∃ ps, downloadEach dl l = (Except.ok ps, l) := by
  intro l
  induction l with
  | nil => intro h; exact ⟨[], rfl⟩
  | cons n rest ih =>
    intro h
    have hn := h n (List.mem_cons_self n rest)
    cases hd : dl n with
    | error e => rw [hd] at hn; simp [exceptOk] at hn
    | ok p =>
      obtain ⟨ps, hps⟩ := ih (fun m hm => h m (List.mem_cons_of_mem n hm))
      exact ⟨p :: ps, by simp [downloadEach, hd, hps, Except.map]⟩

/-- The first failing record stops downloadEach: the records before it
succeed and are attempted, the failing record is attempted, the records
after it are not, and the error is returned. -/
theorem downloadEach_stops (dl : String → Except PyError String) :
    ∀ (pre : List String) (r : String) (post : List String) (e : PyError),
      (∀ n ∈ pre, exceptOk (dl n) = true) → dl r = Except.error e →
      downloadEach dl (pre ++ r :: post) = (Except.error e, pre ++ [r]) := by
  intro pre
  induction pre with
  | nil => intro r post e h hr; simp [downloadEach, hr]
  | cons n pre1 ih =>
    intro r post e h hr
    have hn := h n (List.mem_cons_self n pre1)
    cases hd : dl n with
    | error e2 => rw [hd] at hn; simp [exceptOk] at hn
    | ok p =>
      have hrec := ih r post e (fun m hm => h m (List.mem_cons_of_mem n hm)) hr
      simp [downloadEach, hd, hrec, Except.map]

/-- Once the firmware cache holds a value, repeated reads of the
firmware property return that value, change nothing and make no costly
call. -/
theorem firmwareIter_cached (f : String) :
    ∀ (n : Nat) (s : DoxieScanner) (o : ExtraOracle), s._firmware = some f →
      firmwareIter n s o = (List.replicate n f, s, o) := by
  intro n
  induction n with
  | zero => intro s o h; rfl
  | succ n ih =>
    intro s o h
    simp [firmwareIter, DoxieScanner.firmware, h, ih s o h, List.replicate_succ]

/-- Every iteration of connected_to_external_power makes exactly one
costly call. -/
theorem powerIter_calls :
    ∀ (n : Nat) (s : DoxieScanner) (o : ExtraOracle),
      ((powerIter n s o).2.2).calls = o.calls + n := by
  intro n
  induction n with
  | zero => intro s o; simp [powerIter]
  | succ n ih =>
    intro s o
    simp only [powerIter]
    rw [ih]
    simp [DoxieScanner.connected_to_external_power, callExtra]
    omega

/-- A successfully constructed client keeps the base URL it was given. -/
theorem init_url_eq (url : UrlParts) (env : ConstructEnv) (d : DoxieScanner)
    (h : (DoxieScanner.init url true env).1 = Except.ok d) : d.url = url := by
  unfold DoxieScanner.init DoxieScanner._load_hello_attributes at h
  simp only [if_true] at h
  cases hh : env.hello ((DoxieScanner.mkInitial url)._api_url "/hello.json") with
  | error e => rw [hh] at h; simp at h
  | ok a =>
    rw [hh] at h
    simp only at h
    by_cases hp : a.hasPassword = true
    · simp only [hp, if_true] at h
      unfold DoxieScanner._load_password at h
      by_cases hm : a.mode = "Client"
      · simp only [hm, if_true] at h
        cases hc : (some a.mac).bind env.config with
        | none => rw [hc] at h; simp at h
        | some pw =>
          rw [hc] at h
          simp only [Except.ok.injEq] at h
          rw [← h]
          rfl
      · simp only [hm, if_false] at h
        cases hc : (some a.mac).bind env.config with
        | none => rw [hc] at h; simp at h
        | some pw =>
          rw [hc] at h
          simp only [Except.ok.injEq] at h
          rw [← h]
          rfl
    · simp only [hp, if_false, Bool.false_eq_true] at h
      by_cases hm : a.mode = "Client"
      · simp only [hm, if_true, Except.ok.injEq] at h
        rw [← h]
        rfl
      · simp only [hm, if_false, Except.ok.injEq] at h
        rw [← h]
        rfl

/-- C1 counterexample: in the per-scanner cycle, when the download of
the second of three listed records fails with the not-found HTTPError,
the third record is never attempted (the record is not skipped and the
cycle does not continue), no deletion is issued, and the error is
absorbed by the bare except instead of propagating — refuting the claim
that a per-record failure is skipped while the cycle continues to every
remaining record and that other error classes propagate. -/
theorem C1_counterexample :
    (scanner_cycle c1Env).downloadsAttempted = ["r1", "r2"] ∧
    ¬ ("r3" ∈ (scanner_cycle c1Env).downloadsAttempted) ∧
    (scanner_cycle c1Env).deleteCalls = [] ∧
    (scanner_cycle c1Env).caught = some (PyError.httpError 404) := by
  decide

/-- C1 (amended): when the download of a record fails, the per-scanner
cycle of main attempts only the records up to and including the failing
one, the remaining records of the listing are not processed, no deletion
is issued for that scanner, and the error — whatever its class — is
absorbed by the bare except handler (recorded in caught) rather than
propagating; the outer loop then continues with the next scanner. -/
theorem C1_amended_cycle_aborts (env : WorkflowEnv) (pre post : List String)
    (r : String) (e : PyError)
    (hl : env.listings 0 = pre ++ r :: post)
    (hpre : ∀ n ∈ pre, exceptOk (env.download n) = true)
    (hr : env.download r = Except.error e) :
    scanner_cycle env =
      { downloadsAttempted := pre ++ [r], sent := [], deleteCalls := [],
        caught := some e } := by
  have hde := downloadEach_stops env.download pre r post e hpre hr
  simp [scanner_cycle, download_scans_renamed, hl, hde]

/-- C1 witness: the amended theorem applied at the concrete
three-record environment with the second download failing. -/
theorem C1_amended_witness :
    scanner_cycle c1Env =
      { downloadsAttempted := ["r1", "r2"], sent := [], deleteCalls := [],
        caught := some (PyError.httpError 404) } := by
  have h := C1_amended_cycle_aborts c1Env ["r1"] ["r3"] "r2"
    (PyError.httpError 404) rfl (by decide) rfl
  simpa using h

/-- C2 counterexample: with every download succeeding and a new scan
arriving between the two scans queries, the single deletion request of
the cycle names the freshly re-queried listing, which differs from the
listing captured in step 1 — refuting the claim that the deletion is
scoped to the listing captured in step 1 and not to a re-queried
listing. -/
theorem C2_counterexample :
    c2Env.listings 0 = ["a"] ∧
    (scanner_cycle c2Env).deleteCalls = [["a", "b"]] ∧
    (scanner_cycle c2Env).deleteCalls ≠ [c2Env.listings 0] := by
  decide

/-- C2 (amended): only when every download of the listing succeeds does
the per-scanner cycle issue exactly one delete_scans call, and the names
in that call come from a fresh scans re-query made at deletion time (the
second query of the cycle), not from the listing captured in step 1; when
any download fails, no deletion request is issued at all. -/
theorem C2_amended_delete_requeried (env : WorkflowEnv)
    (h : ∀ n ∈ env.listings 0, exceptOk (env.download n) = true) :
    (scanner_cycle env).deleteCalls = [env.listings 1] ∧
    (scanner_cycle env).caught = none := by
  obtain ⟨ps, hps⟩ := downloadEach_all_ok env.download (env.listings 0) h
  simp [scanner_cycle, download_scans_renamed, hps, delete_scans]

/-- C2 witness: the amended theorem applied at the concrete environment
whose second scans query returns one more record than the first. -/
theorem C2_amended_witness :
    (scanner_cycle c2Env).deleteCalls = [c2Env.listings 1] ∧
    (scanner_cycle c2Env).caught = none :=
  C2_amended_delete_requeried c2Env (by decide)

/-- C3 (confirmed): when the device reports the backing file of a record
as not found (status 404), download_scan for that record fails with the
HTTPError carrying status 404 — the per-record failure case — and that
error value is distinct from a connection failure (device unreachable),
from a JSON decode failure (protocol error) and from an auth rejection
(the HTTPError carrying status 401); note that the not-found error and
the auth error share the HTTPError exception class and are told apart by
the carried status code. -/
theorem C3_download_not_found_err (s : DoxieScanner) (env : StreamEnv) (fs : Fs)
    (path dir : String) (body : List Nat)
    (h : env.http (s.download_scan env fs path dir).2 = HttpOutcome.response 404 body) :
    (s.download_scan env fs path dir).1 = Except.error (PyError.httpError 404) ∧
    PyError.httpError 404 ≠ PyError.connectionError ∧
    PyError.httpError 404 ≠ PyError.jsonError ∧
    PyError.httpError 404 ≠ PyError.httpError 401 := by
  refine ⟨?_, by decide, by decide, by decide⟩
  rw [download_scan_url] at h
  unfold DoxieScanner.download_scan
  simp [DoxieScanner._get_url, h]

/-- C3 witness: the theorem applied at a concrete record whose device
response is a 404. -/
theorem C3_witness :
    (dS.download_scan env404 fs0 "/scan123.jpg" "/tmp").1 =
      Except.error (PyError.httpError 404) ∧
    PyError.httpError 404 ≠ PyError.connectionError ∧
    PyError.httpError 404 ≠ PyError.jsonError ∧
    PyError.httpError 404 ≠ PyError.httpError 401 :=
  C3_download_not_found_err dS env404 fs0 "/scan123.jpg" "/tmp" [] rfl

/-- C4 (confirmed): on a client whose firmware cache is empty, N repeated
reads of the firmware property (N at least 1) make exactly one costly
hello_extra call in total, every read returns the same string (the
firmware field of the response to that single first call), and the cache
still holds that value afterwards. -/
theorem C4_firmware_cached (s : DoxieScanner) (o : ExtraOracle) (N : Nat)
    (h0 : s._firmware = none) (hN : 1 ≤ N) :
    (firmwareIter N s o).1 = List.replicate N (o.resps o.calls).firmware ∧
    ((firmwareIter N s o).2.2).calls = o.calls + 1 ∧
    ((firmwareIter N s o).2.1)._firmware = some (o.resps o.calls).firmware := by
  obtain ⟨M, rfl⟩ : ∃ M, N = M + 1 := ⟨N - 1, by omega⟩
  have hstep : s.firmware o =
      ((o.resps o.calls).firmware,
       { s with _firmware := some (o.resps o.calls).firmware },
       { o with calls := o.calls + 1 }) := by
    simp [DoxieScanner.firmware, h0, callExtra]
  have hcache :
      ({ s with _firmware := some (o.resps o.calls).firmware } : DoxieScanner)._firmware =
        some (o.resps o.calls).firmware := rfl
  simp [firmwareIter, hstep, firmwareIter_cached _ M _ _ hcache, List.replicate_succ]

/-- C4 witness: the theorem applied at a fresh client and a concrete
oracle for three repeated reads. -/
theorem C4_witness :
    (firmwareIter 3 dS oracle1).1 = List.replicate 3 "2.9.0" ∧
    ((firmwareIter 3 dS oracle1).2.2).calls = oracle1.calls + 1 ∧
    ((firmwareIter 3 dS oracle1).2.1)._firmware = some "2.9.0" :=
  C4_firmware_cached dS oracle1 3 rfl (by decide)

/-- C5 (confirmed): every read of connected_to_external_power performs
exactly one fresh costly hello_extra call (regardless of the state of
the cache), returns the power flag of that very response, and its only
effect on the client state is overwriting the firmware cache with the
firmware field of the same response — url, username, password, model,
name, mac, mode, network and firmware_wifi are unchanged; over N
repeated reads, exactly N costly calls are made. -/
theorem C5_power_fresh_frame (s : DoxieScanner) (o : ExtraOracle) :
    (s.connected_to_external_power o).1 = (o.resps o.calls).connectedToExternalPower ∧
    ((s.connected_to_external_power o).2.2).calls = o.calls + 1 ∧
    ((s.connected_to_external_power o).2.2).resps = o.resps ∧
    ((s.connected_to_external_power o).2.1)._firmware = some (o.resps o.calls).firmware ∧
    ((s.connected_to_external_power o).2.1).url = s.url ∧
    ((s.connected_to_external_power o).2.1).username = s.username ∧
    ((s.connected_to_external_power o).2.1).password = s.password ∧
    ((s.connected_to_external_power o).2.1).model = s.model ∧
    ((s.connected_to_external_power o).2.1).name = s.name ∧
    ((s.connected_to_external_power o).2.1).mac = s.mac ∧
    ((s.connected_to_external_power o).2.1).mode = s.mode ∧
    ((s.connected_to_external_power o).2.1).network = s.network ∧
    ((s.connected_to_external_power o).2.1).firmware_wifi = s.firmware_wifi ∧
    ∀ n, ((powerIter n s o).2.2).calls = o.calls + n :=
  ⟨rfl, rfl, rfl, rfl, rfl, rfl, rfl, rfl, rfl, rfl, rfl, rfl, rfl,
   fun n => powerIter_calls n s o⟩

/-- C6 (confirmed): when the hello response of the device indicates a
password is required and the credential store has no entry under the MAC
of the device, construction fails with the could-not-find-password error
carrying that MAC and the config path, and the only device API call made
is the hello call — no scans listing, download or deletion path (all of
which start with the scans root) is requested. -/
theorem C6_credential_not_found (url : UrlParts) (env : ConstructEnv) (a : HelloResp)
    (hh : env.hello ((DoxieScanner.mkInitial url)._api_url "/hello.json") = Except.ok a)
    (hp : a.hasPassword = true)
    (hc : env.config a.mac = none) :
    (DoxieScanner.init url true env).1 =
      Except.error (PyError.credentialNotFound (some a.mac) env.configPath) ∧
    (DoxieScanner.init url true env).2 = ["/hello.json"] ∧
    ∀ p ∈ (DoxieScanner.init url true env).2, startswith p "/scans" = false := by
  have hmain : DoxieScanner.init url true env =
      (Except.error (PyError.credentialNotFound (some a.mac) env.configPath),
       ["/hello.json"]) := by
    unfold DoxieScanner.init DoxieScanner._load_hello_attributes
    simp only [if_true]
    rw [hh]
    simp only [hp, if_true]
    unfold DoxieScanner._load_password
    by_cases hm : a.mode = "Client"
    · simp [hm, hc]
    · simp [hm, hc]
  refine ⟨by rw [hmain], by rw [hmain], ?_⟩
  rw [hmain]
  intro p hp2
  simp only [List.mem_singleton] at hp2
  subst hp2
  decide

/-- C6 witness: the theorem applied at a concrete device requiring a
password and an empty credential store. -/
theorem C6_witness :
    (DoxieScanner.init baseUrl true c6Env).1 =
      Except.error (PyError.credentialNotFound (some helloA.mac) c6Env.configPath) ∧
    (DoxieScanner.init baseUrl true c6Env).2 = ["/hello.json"] ∧
    ∀ p ∈ (DoxieScanner.init baseUrl true c6Env).2, startswith p "/scans" = false :=
  C6_credential_not_found baseUrl c6Env helloA rfl rfl rfl

/-- C7 (confirmed): when the construction of a client succeeds for every
SSDP reply, discover returns one client per responding device, in reply
order, and the base address of each client is the advertised location of
the corresponding reply normalized to its scheme and netloc with the
path reset to the root and params, query and fragment dropped. -/
theorem C7_discover_normalizes (responses : List SsdpResponse) (env : ConstructEnv)
    (h : ∀ r ∈ responses, exceptOk (DoxieScanner.init
        { scheme := r.location.scheme, netloc := r.location.netloc, path := "/",
          params := "", query := "", fragment := "" } true env).1 = true) :
    ∃ ds, discover responses env = Except.ok ds ∧
      ds.map (fun d => d.url) =
        responses.map (fun r =>
          ({ scheme := r.location.scheme, netloc := r.location.netloc, path := "/",
             params := "", query := "", fragment := "" } : UrlParts)) := by
  induction responses with
  | nil => exact ⟨[], rfl, rfl⟩
  | cons r rest ih =>
    have hr := h r (List.mem_cons_self r rest)
    cases hinit : (DoxieScanner.init
        { scheme := r.location.scheme, netloc := r.location.netloc, path := "/",
          params := "", query := "", fragment := "" } true env).1 with
    | error e => rw [hinit] at hr; simp [exceptOk] at hr
    | ok d =>
      obtain ⟨ds, hds, hmap⟩ := ih (fun r2 h2 => h r2 (List.mem_cons_of_mem r h2))
      refine ⟨d :: ds, ?_, ?_⟩
      · simp [discover, hinit, hds, Except.map]
      · simp [List.map_cons, hmap, init_url_eq _ env d hinit]

/-- C7 witness: the theorem applied at one concrete reply whose
advertised location carries a non-root path, a query and a fragment. -/
theorem C7_witness :
    ∃ ds, discover [c7Resp] c7Env = Except.ok ds ∧
      ds.map (fun d => d.url) =
        [c7Resp].map (fun r =>
          ({ scheme := r.location.scheme, netloc := r.location.netloc, path := "/",
             params := "", query := "", fragment := "" } : UrlParts)) :=
  C7_discover_normalizes [c7Resp] c7Env (by decide)

/-- C8 (confirmed): discovery with zero responders returns the empty
list of clients and no error. -/
theorem C8_discover_empty (env : ConstructEnv) : discover [] env = Except.ok [] := rfl

/-- C9 (confirmed): on a 200 response for a record whose remote path
starts with a slash, download_scan writes a file in the destination
directory named after the remote base name of the record, with the file
contents byte for byte equal to the source stream regardless of what was
at that path before (overwrite), leaves every other path untouched,
writes in nonempty chunks bounded by 8192 bytes rather than a single
blob, and returns that local file path. -/
theorem C9_download_scan_writes (s : DoxieScanner) (env : StreamEnv) (fs : Fs)
    (path dir : String) (body : List Nat)
    (hslash : startswith path "/" = true)
    (h : env.http (s.download_scan env fs path dir).2 = HttpOutcome.response 200 body) :
    ∃ fs2,
      (s.download_scan env fs path dir).1 =
        Except.ok (os_path_join dir (os_path_basename path), fs2) ∧
      fs2 (os_path_join dir (os_path_basename path)) = some body ∧
      (∀ q, q ≠ os_path_join dir (os_path_basename path) → fs2 q = fs q) ∧
      (∀ c ∈ iter_content body, 0 < c.length ∧ c.length ≤ 1024 * 8) := by
  rw [download_scan_url] at h
  have hres := download_scan_ok s env fs path dir body h
  rw [os_path_basename_fixup path hslash] at hres
  refine ⟨_, hres, ?_, ?_, ?_⟩
  · simp [iter_content_join]
  · intro q hq
    simp [hq]
  · intro c hc
    simp only [iter_content, toChunks] at hc
    exact toChunksAux_len (1024 * 8) (by decide) body.length body c hc

/-- C9 witness: the theorem applied at a concrete record, destination
directory and three-byte stream, on a filesystem that already holds a
file at the destination path. -/
theorem C9_witness :
    ∃ fs2,
      (dS.download_scan env200 fs0 "/DOXIE/JPEG/IMG_0001.JPG" "/tmp").1 =
        Except.ok (os_path_join "/tmp" (os_path_basename "/DOXIE/JPEG/IMG_0001.JPG"), fs2) ∧
      fs2 (os_path_join "/tmp" (os_path_basename "/DOXIE/JPEG/IMG_0001.JPG")) =
        some [1, 2, 3] ∧
      (∀ q, q ≠ os_path_join "/tmp" (os_path_basename "/DOXIE/JPEG/IMG_0001.JPG") →
        fs2 q = fs0 q) ∧
      (∀ c ∈ iter_content [1, 2, 3], 0 < c.length ∧ c.length ≤ 1024 * 8) :=
  C9_download_scan_writes dS env200 fs0 "/DOXIE/JPEG/IMG_0001.JPG" "/tmp" [1, 2, 3]
    (by decide) rfl

/-- C10 (confirmed): when the path argument of download_scan does not
start with the literal string of the scans root, the device path
requested is the literal concatenation of the scans root and the path
with no separator inserted, while a path already starting with the scans
root is requested unchanged; in both cases the local file written on
success is named after the basename of the resulting requested path. -/
theorem C10_scans_path_fixup (s : DoxieScanner) (env : StreamEnv) (fs : Fs)
    (path dir : String) :
    ((startswith path "/scans" = false →
        (s.download_scan env fs path dir).2 = s._api_url ("/scans" ++ path)) ∧
     (startswith path "/scans" = true →
        (s.download_scan env fs path dir).2 = s._api_url path)) ∧
    ∀ body, env.http (s.download_scan env fs path dir).2 = HttpOutcome.response 200 body →
      ∃ fs2, (s.download_scan env fs path dir).1 =
        Except.ok
          (os_path_join dir
            (os_path_basename ((s.download_scan env fs path dir).2.path)), fs2) := by
  refine ⟨⟨?_, ?_⟩, ?_⟩
  · intro hf
    rw [download_scan_url]
    simp [hf]
  · intro ht
    rw [download_scan_url]
    simp [ht]
  · intro body h
    rw [download_scan_url] at h
    have hres := download_scan_ok s env fs path dir body h
    rw [download_scan_url]
    simp only [DoxieScanner._api_url]
    exact ⟨_, hres⟩

/-- C10 witness: the theorem applied at the concrete path that lacks the
scans root, showing the request targets the separator-free
concatenation. -/
theorem C10_witness :
    (dS.download_scan env200 fs0 "0001.jpg" "/tmp").2 =
      dS._api_url ("/scans" ++ "0001.jpg") ∧
    ∃ fs2, (dS.download_scan env200 fs0 "0001.jpg" "/tmp").1 =
      Except.ok
        (os_path_join "/tmp"
          (os_path_basename ((dS.download_scan env200 fs0 "0001.jpg" "/tmp").2.path)),
         fs2) :=
  ⟨(C10_scans_path_fixup dS env200 fs0 "0001.jpg" "/tmp").1.1 (by decide),
   (C10_scans_path_fixup dS env200 fs0 "0001.jpg" "/tmp").2 [1, 2, 3] rfl⟩
